import Mathlib

/-!
Verification development for the simulation execution orchestrator of the
Starfish GUI (file `src/gui/runner/simulation_runner.py`).

The embedding models:
* the progress estimation performed inside `SimulationWorker.run`
  (tokenisation of an output line, the `it:` marker scan, Python `int()`
  parsing, and the three-segment piecewise percentage rule),
* the event trace produced by one `SimulationWorker.run` invocation,
* the jar search `SimulationWorker.find_starfish_jar`,
* the controller state and the methods `start_simulation`,
  `stop_simulation` and `on_simulation_finished` of `SimulationRunner`.

Machine integers are modelled as `Int`; Python `//` is floor division,
modelled by `Int.fdiv`.
-/

/-- Split a character list on runs of whitespace, accumulating the current
token in reverse; empty pieces are dropped, as Python `str.split()` with
no argument does. -/
def splitWsAux : List Char → List Char → List String
  | [], acc => if acc.isEmpty then [] else [String.mk acc.reverse]
  | c :: cs, acc =>
    if c.isWhitespace then
      if acc.isEmpty then splitWsAux cs []
      else String.mk acc.reverse :: splitWsAux cs []
    else splitWsAux cs (c :: acc)

/-- Tokens of a line, as Python `str.split()` with no argument: split on
runs of whitespace, dropping empty pieces (`output.split()` at line 97). -/
def tokens (s : String) : List String :=
  splitWsAux s.data []

/-- Value of a nonempty run of decimal digits, accumulator style; `none`
as soon as a non-digit character appears. -/
def digitsVal : List Char → Nat → Option Nat
  | [], acc => some acc
  | c :: cs, acc =>
    if c.isDigit then digitsVal cs (acc * 10 + (c.toNat - 48)) else none

/-- Parse a nonempty all-digit character list, else `none`. -/
def parseDigits (cs : List Char) : Option Nat :=
  if cs.isEmpty then none else digitsVal cs 0

/-- Python `int(token)` on a whitespace-free token: an optional sign
followed by a nonempty digit run; anything else raises (here: `none`).
This models the `int(parts[i + 1])` call at line 100. -/
def parsePyInt (s : String) : Option Int :=
  match s.data with
  | [] => none
  | '-' :: rest => (parseDigits rest).map (fun n => -(n : Int))
  | '+' :: rest => (parseDigits rest).map (fun n => (n : Int))
  | cs => (parseDigits cs).map (fun n => (n : Int))

/-- The three-segment progress heuristic of lines 103-108, with Python
floor division (`//`) modelled by `Int.fdiv`. -/
def progressOfIt (current_it : Int) : Int :=
  if current_it ≤ 1000 then min 100 (Int.fdiv current_it 10)
  else if current_it ≤ 5000 then min 100 (10 + Int.fdiv (current_it - 1000) 40)
  else min 100 (90 + Int.fdiv (current_it - 5000) 500)

/-- Scan the token list for the first token equal to `"it:"` and parse the
token that follows it (lines 98-110): if the marker is the last token the
`IndexError` is swallowed by the bare `except` (no signal), and if `int()`
fails the `ValueError` is swallowed the same way. Only the first marker is
used (the loop `break`s after the first emit, and any exception aborts the
whole loop). -/
def firstItValue : List String → Option Int
  | [] => none
  | t :: rest =>
    if t = "it:" then
      match rest with
      | [] => none
      | v :: _ => parsePyInt v
    else firstItValue rest

/-- The progress estimator applied to one raw output line: the optional
percentage emitted through `progress_updated` for that line. -/
def estimateProgress (line : String) : Option Int :=
  (firstItValue (tokens line)).map progressOfIt

/-- Events emitted by the worker, corresponding to the Qt signals
`output_received`, `progress_updated` and `simulation_finished`. -/
inductive Event
  | outputLine (s : String)
  | progressUpdate (p : Int)
  | simulationFinished (code : Int)
deriving DecidableEq, Repr

/-- Events produced for one line read in the loop (lines 88-112): the line
itself, then the progress update when the estimator yields a signal. -/
def lineEvents (l : String) : List Event :=
  Event.outputLine l ::
    (match estimateProgress l with
     | some p => [Event.progressUpdate p]
     | none => [])

/-- `exit_code or 0` at line 116: Python `or` takes the right operand when
the left is falsy (`None` or `0`). -/
def pyOrZero : Option Int → Int
  | none => 0
  | some c => if c = 0 then 0 else c

/-- The error text emitted when the jar is not found (lines 41-47). -/
def jarNotFoundMsg : String :=
  "Error: StarfishCLI.jar not found!\n" ++
  "Please ensure StarfishCLI.jar is in one of these locations:\n" ++
  "- Current directory\n" ++
  "- build/ directory\n" ++
  "- dist/ directory\n" ++
  "- target/ directory\n" ++
  "- Working directory\n"

/-- The three startup messages of lines 64-66; the command is
`['java', '-jar', str(jar_file), sim_file_name]` joined by spaces. -/
def startupMessages (jar wd simName : String) : List String :=
  ["Starting simulation: " ++ "java -jar " ++ jar ++ " " ++ simName ++ "\n",
   "Working directory: " ++ wd ++ "\n",
   "Simulation file: " ++ simName ++ "\n"]

/-- Inputs determining one `SimulationWorker.run` execution that raises no
exception: the resolved jar (if any), the resolved working directory and
simulation file name, the lines read from the process before EOF or the
cooperative-stop break, and the final `poll()` result. -/
structure WorkerEnv where
  jarFile : Option String
  workingDir : String
  simFileName : String
  lines : List String
  pollResult : Option Int
deriving DecidableEq, Repr

/-- The ordered event trace of one exception-free `SimulationWorker.run`
(lines 35-116): when no jar is found, the error text and a terminal
`simulation_finished(-1)`; otherwise the startup messages, the per-line
events in read order, and exactly one terminal
`simulation_finished(exit_code or 0)`. -/
def workerRun (env : WorkerEnv) : List Event :=
  match env.jarFile with
  | none => [Event.outputLine jarNotFoundMsg, Event.simulationFinished (-1)]
  | some jar =>
      (startupMessages jar env.workingDir env.simFileName).map Event.outputLine
        ++ env.lines.flatMap lineEvents
        ++ [Event.simulationFinished (pyOrZero env.pollResult)]

/-- The trace of a `SimulationWorker.run` aborted by an exception after
some lines were processed (lines 118-120): the error message and a
terminal `simulation_finished(-1)`. -/
def workerRunFailing (jar wd simName : String) (processed : List String)
    (errText : String) : List Event :=
  (startupMessages jar wd simName).map Event.outputLine
    ++ processed.flatMap lineEvents
    ++ [Event.outputLine ("Error running simulation: " ++ errText ++ "\n"),
        Event.simulationFinished (-1)]

/-- Terminal deliveries of a session: the worker's own trace, plus — when
the session was ended through `SimulationRunner.stop_simulation` — the
extra direct `on_simulation_finished(-1)` invocation of line 367, recorded
here as one more terminal event. -/
def sessionEvents (env : WorkerEnv) (stopped : Bool) : List Event :=
  workerRun env ++ (if stopped then [Event.simulationFinished (-1)] else [])

/-- Whether an event is the terminal `simulation_finished` signal. -/
def isFinishedEvent : Event → Bool
  | Event.simulationFinished _ => true
  | _ => false

/-- Number of `simulationFinished` events in a trace. -/
def finishedDeliveries (evs : List Event) : Nat :=
  (evs.filter isFinishedEvent).length

/-- The progress value carried by an event, when it is one. -/
def progressOfEvent : Event → Option Int
  | Event.progressUpdate p => some p
  | _ => none

/-- The progress values of a trace, in order. -/
def progressEvents (evs : List Event) : List Int :=
  evs.filterMap progressOfEvent

/-- Terminal outcomes, as the spec names the three classification branches
of `on_simulation_finished` (lines 388-396). -/
inductive Outcome
  | Success
  | CompletedWithWarnings
  | Failed (code : Int)
deriving DecidableEq, Repr

/-- The exit-code classification of lines 388-396: `0` is success,
`4294967295` (Windows' `-1` as unsigned 32-bit) is completion with
warnings, anything else is failure carrying the code. -/
def classifyExit (code : Int) : Outcome :=
  if code = 0 then Outcome.Success
  else if code = 4294967295 then Outcome.CompletedWithWarnings
  else Outcome.Failed code

/-- The status-label text set in each classification branch. -/
def outcomeLabel : Outcome → String
  | Outcome.Success => "Completed"
  | Outcome.CompletedWithWarnings => "Completed with warnings"
  | Outcome.Failed _ => "Failed"

/-- Observable state of the `SimulationRunner` widget: the running flag,
the status and current-file labels, the progress bar value, the queue of
pending simulation files, and the console text (as appended pieces). -/
structure RunnerState where
  is_running_simulation : Bool
  status_label : String
  current_file_label : String
  progress_bar : Int
  queue : List String
  console : List String
deriving DecidableEq, Repr

/-- `SimulationRunner.on_simulation_finished` (lines 379-410): clears the
running flag, classifies the exit code into a status label and a console
message, resets the current-file label, forces the progress bar to 100,
and — when the queue is non-empty — shows the continue-queue dialog. The
returned `Bool` records whether that continuation offer was made. -/
def on_simulation_finished (st : RunnerState) (exit_code : Int) :
    RunnerState × Bool :=
  let st1 := { st with is_running_simulation := false }
  let st2 :=
    if exit_code = 0 then
      { st1 with status_label := "Completed",
                 console := st1.console ++
                   ["\nSimulation completed successfully\n"] }
    else if exit_code = 4294967295 then
      { st1 with status_label := "Completed with warnings",
                 console := st1.console ++
                   ["\nSimulation completed with warnings (output errors)\n"] }
    else
      { st1 with status_label := "Failed",
                 console := st1.console ++
                   ["\nSimulation failed with exit code " ++
                     toString exit_code ++ "\n"] }
  let st3 := { st2 with current_file_label := "None", progress_bar := 100 }
  (st3, decide (st3.queue.length > 0))

/-- What `SimulationRunner.start_simulation` reports to its caller:
`silentIgnored` for the bare `return` of lines 318-319 (nothing shown, no
error raised), `emptyQueueDialog` for the information box of lines 322-325,
or the dequeued file on a successful start. -/
inductive StartResult
  | silentIgnored
  | emptyQueueDialog
  | started (file : String)
deriving DecidableEq, Repr

/-- `SimulationRunner.start_simulation` (lines 316-343): a silent return
when already running; an information dialog when the queue is empty;
otherwise dequeue the head, set the running flag and labels, clear the
console and start a worker for the dequeued file. -/
def start_simulation (st : RunnerState) : RunnerState × StartResult :=
  if st.is_running_simulation then (st, StartResult.silentIgnored)
  else
    match st.queue with
    | [] => (st, StartResult.emptyQueueDialog)
    | f :: rest =>
      ({ st with queue := rest,
                 is_running_simulation := true,
                 status_label := "Running",
                 current_file_label := f,
                 console := [] },
       StartResult.started f)

/-- `SimulationRunner.stop_simulation` (lines 361-367): after stopping and
joining the worker (side effects outside this state), it unconditionally
calls `on_simulation_finished(-1)` — there is no guard on the current
state, no dedicated cancelled outcome, and the call happens even when no
worker ever ran. -/
def stop_simulation (st : RunnerState) : RunnerState × Bool :=
  on_simulation_finished st (-1)

/-- The ordered jar candidate list of `find_starfish_jar` (lines 131-147):
six fixed locations relative to the current and parent directory, then —
when the options object has a working directory — three more under it. -/
def candidatePaths (cwd parentDir wd : String) (hasWd : Bool) : List String :=
  [cwd ++ "/StarfishCLI.jar",
   cwd ++ "/build/StarfishCLI.jar",
   cwd ++ "/dist/StarfishCLI.jar",
   cwd ++ "/target/StarfishCLI.jar",
   parentDir ++ "/StarfishCLI.jar",
   cwd ++ "/lib/StarfishCLI.jar"] ++
  (if hasWd then
     [wd ++ "/StarfishCLI.jar",
      wd ++ "/build/StarfishCLI.jar",
      wd ++ "/dist/StarfishCLI.jar"]
   else [])

/-- `needle` starts `hay` (character-list version). -/
def charsStartWith : List Char → List Char → Bool
  | [], _ => true
  | _ :: _, [] => false
  | a :: as, b :: bs => a = b && charsStartWith as bs

/-- `needle` occurs somewhere inside the second list, as Python's
substring test `needle in hay`. -/
def charsContain (needle : List Char) : List Char → Bool
  | [] => charsStartWith needle []
  | b :: rest => charsStartWith needle (b :: rest) || charsContain needle rest

/-- Python `needle in hay` on strings. -/
def strContains (hay needle : String) : Bool :=
  charsContain needle.data hay.data

/-- Filesystem view the search runs against: the set of existing paths and
the `Path.cwd().glob("*.jar")` result (jar file names in the current
directory, in glob order). -/
structure FsState where
  existing : List String
  cwdJarGlob : List String
deriving DecidableEq, Repr

/-- `SimulationWorker.find_starfish_jar` (lines 128-158): the first
existing path of the ordered candidate list wins; when none exists, the
first jar file in the current directory whose lower-cased name contains
`"starfish"` is returned; else `none`. -/
def find_starfish_jar (fs : FsState) (cwd parentDir wd : String)
    (hasWd : Bool) : Option String :=
  match (candidatePaths cwd parentDir wd hasWd).find?
      (fun p => fs.existing.contains p) with
  | some p => some p
  | none => fs.cwdJarGlob.find? (fun name => strContains name.toLower "starfish")

/-- The spec's statement of the three-segment rule, over natural numbers
with truncating (= floor) division, written from §4.2 of the design. -/
def specRuleNat (n : Nat) : Nat :=
  if n ≤ 1000 then min 100 (n / 10)
  else if n ≤ 5000 then min 100 (10 + (n - 1000) / 40)
  else min 100 (90 + (n - 5000) / 500)

/-- An idle controller state: nothing running, fresh labels, empty queue. -/
def idleState : RunnerState :=
  { is_running_simulation := false
    status_label := "Ready"
    current_file_label := "None"
    progress_bar := 0
    queue := []
    console := [] }

/-- A running controller state with one job still queued. -/
def runningState : RunnerState :=
  { is_running_simulation := true
    status_label := "Running"
    current_file_label := "A.xml"
    progress_bar := 10
    queue := ["B.xml"]
    console := [] }

/-- An idle controller state with the two jobs of the end-to-end scenario
queued. -/
def queuedState : RunnerState :=
  { is_running_simulation := false
    status_label := "Ready"
    current_file_label := "None"
    progress_bar := 0
    queue := ["A.xml", "B.xml"]
    console := [] }

/-- The worker inputs of the end-to-end scenario: the engine prints
`it: 100` and `it: 2000` and then exits with code 0. -/
def scenarioEnv : WorkerEnv :=
  { jarFile := some "StarfishCLI.jar"
    workingDir := "wd"
    simFileName := "A.xml"
    lines := ["it: 100\n", "it: 2000\n"]
    pollResult := some 0 }

/-- A session stopped cooperatively: the worker read nothing further and
the terminated child had not been reaped when `poll()` ran. -/
def cancelEnv : WorkerEnv :=
  { jarFile := some "StarfishCLI.jar"
    workingDir := "wd"
    simFileName := "A.xml"
    lines := ["it: 100\n"]
    pollResult := none }

/-! ## Helper lemmas -/

/-- On iteration counts taken from a natural number, the implemented
three-segment rule computes exactly the spec's natural-number rule. -/
theorem progressOfIt_natCast (n : Nat) :
    progressOfIt (n : Int) = (specRuleNat n : Int) := by
  unfold progressOfIt specRuleNat
  rw [@Int.fdiv_eq_ediv (n : Int) 10 (by norm_num),
    @Int.fdiv_eq_ediv ((n : Int) - 1000) 40 (by norm_num),
    @Int.fdiv_eq_ediv ((n : Int) - 5000) 500 (by norm_num)]
  by_cases h1 : n ≤ 1000
  · rw [if_pos (show (n : Int) ≤ 1000 by exact_mod_cast h1), if_pos h1]
    rw [min_def, min_def]
    split <;> split <;> omega
  · by_cases h2 : n ≤ 5000
    · rw [if_neg (show ¬ (n : Int) ≤ 1000 by exact_mod_cast h1), if_neg h1,
        if_pos (show (n : Int) ≤ 5000 by exact_mod_cast h2), if_pos h2]
      rw [min_def, min_def]
      split <;> split <;> omega
    · rw [if_neg (show ¬ (n : Int) ≤ 1000 by exact_mod_cast h1), if_neg h1,
        if_neg (show ¬ (n : Int) ≤ 5000 by exact_mod_cast h2), if_neg h2]
      rw [min_def, min_def]
      split <;> split <;> omega

/-! ## Claims -/

/-- C1: when a run ends with the process's raw exit code, the controller
classifies 0 as Success, 4294967295 as CompletedWithWarnings, and any
other nonzero code c as Failed c; `on_simulation_finished` sets exactly
the status label belonging to that classification. -/
theorem C1_exit_classification (st : RunnerState) (c : Int) :
    classifyExit 0 = Outcome.Success ∧
    classifyExit 4294967295 = Outcome.CompletedWithWarnings ∧
    (c ≠ 0 → c ≠ 4294967295 → classifyExit c = Outcome.Failed c) ∧
    (on_simulation_finished st c).1.status_label = outcomeLabel (classifyExit c) := by
  refine ⟨by decide, by decide, ?_, ?_⟩
  · intro h1 h2
    simp [classifyExit, h1, h2]
  · unfold on_simulation_finished classifyExit outcomeLabel
    by_cases h1 : c = 0
    · simp [h1]
    · by_cases h2 : c = 4294967295 <;> simp [h1, h2]

/-- Witness for C1 at the concrete failing code 17. -/
theorem C1_exit_classification_w :
    classifyExit 17 = Outcome.Failed 17 ∧
    (on_simulation_finished idleState 17).1.status_label =
      outcomeLabel (classifyExit 17) :=
  ⟨(C1_exit_classification idleState 17).2.2.1 (by decide) (by decide),
   (C1_exit_classification idleState 17).2.2.2⟩

/-- C2 counterexample: a cooperative stop goes through
`on_simulation_finished(-1)`, so the reported outcome is the Failed
branch (status label `Failed`, console message naming exit code -1) —
there is no Cancelled outcome in the code. -/
theorem C2_counterexample :
    (stop_simulation runningState).1.status_label = "Failed" ∧
    (stop_simulation runningState).1.console =
      ["\nSimulation failed with exit code -1\n"] ∧
    classifyExit (-1) = Outcome.Failed (-1) := by
  decide

/-- C2 (amended): a session stopped via the cooperative stop request is
reported through `on_simulation_finished` with the synthetic exit code
-1, regardless of the raw exit code the OS produced, and is therefore
classified as Failed(-1) (status label `Failed`), not as a dedicated
Cancelled outcome. -/
theorem C2_stop_reports_failed (st : RunnerState) :
    stop_simulation st = on_simulation_finished st (-1) ∧
    (stop_simulation st).1.status_label = "Failed" ∧
    (stop_simulation st).1.console =
      st.console ++ ["\nSimulation failed with exit code -1\n"] ∧
    classifyExit (-1) = Outcome.Failed (-1) :=
  ⟨rfl, rfl, rfl, by decide⟩

/-- C3: for every non-negative iteration count n parsed after the first
`it:` marker, the emitted percentage equals the three-segment floor
division rule, and the spec's sample points map to 0, 50, 100, 60, 92. -/
theorem C3_progress_rule (n : Nat) :
    progressOfIt (n : Int) = (specRuleNat n : Int) ∧
    estimateProgress "it: 0" = some 0 ∧
    estimateProgress "it: 500" = some 50 ∧
    estimateProgress "it: 1000" = some 100 ∧
    estimateProgress "it: 3000" = some 60 ∧
    estimateProgress "it: 6000" = some 92 :=
  ⟨progressOfIt_natCast n, by decide, by decide, by decide, by decide, by decide⟩

/-- C4 counterexample: in the end-to-end scenario the line `it: 2000`
yields progress 10 + (2000 - 1000) / 40 = 35, not 60: the produced
progress events are [10, 35], not [10, 60]. -/
theorem C4_counterexample :
    progressEvents (workerRun scenarioEnv) = [10, 35] ∧
    ¬ progressEvents (workerRun scenarioEnv) = [10, 60] := by
  decide

/-- C4 (amended): enqueueing `A.xml`, `B.xml` and starting consumes
`A.xml`; the engine output lines `it: 100` and `it: 2000` produce the
progress events 10 and then 35 (per the three-segment rule); the trace
ends with exit code 0, which yields the Success status label, and with
`B.xml` still queued the continuation offer is made. -/
theorem C4_scenario :
    (start_simulation queuedState).2 = StartResult.started "A.xml" ∧
    (start_simulation queuedState).1.queue = ["B.xml"] ∧
    progressEvents (workerRun scenarioEnv) = [10, 35] ∧
    (workerRun scenarioEnv).getLast? = some (Event.simulationFinished 0) ∧
    (on_simulation_finished (start_simulation queuedState).1 0).1.status_label
      = "Completed" ∧
    (on_simulation_finished (start_simulation queuedState).1 0).2 = true := by
  decide

/-- C5 counterexample: the token `-50` is not an unsigned integer, yet
Python `int()` parses it, and the estimator emits -5 — a signal outside
the claimed range 0..100. -/
theorem C5_counterexample :
    estimateProgress "it: -50" = some (-5) ∧ some (-5 : Int) ≠ some (0 : Int) ∧
    (-5 : Int) < 0 := by
  decide

/-- C5 (amended): the token after the first `it:` marker is parsed as a
signed integer; when it parses to a non-negative n the emitted value is
`progressOfIt n` and lies in 0..100; a token that cannot be parsed as an
integer at all yields no signal; but a negative parsed value can produce
a signal outside 0..100. -/
theorem C5_range (line : String) (n : Int)
    (hp : firstItValue (tokens line) = some n) (hn : 0 ≤ n) :
    estimateProgress line = some (progressOfIt n) ∧
    0 ≤ progressOfIt n ∧ progressOfIt n ≤ 100 ∧
    (∀ l2 : String, firstItValue (tokens l2) = none →
      estimateProgress l2 = none) := by
  refine ⟨by rw [estimateProgress, hp]; rfl, ?_, ?_, ?_⟩
  · unfold progressOfIt
    by_cases h1 : n ≤ 1000
    · rw [if_pos h1]
      exact le_min (by norm_num)
        (Int.fdiv_nonneg hn (by norm_num))
    · by_cases h2 : n ≤ 5000
      · rw [if_neg h1, if_pos h2]
        have hd := Int.fdiv_nonneg (show (0 : Int) ≤ n - 1000 by omega)
          (show (0 : Int) ≤ 40 by norm_num)
        exact le_min (by norm_num) (by omega)
      · rw [if_neg h1, if_neg h2]
        have hd := Int.fdiv_nonneg (show (0 : Int) ≤ n - 5000 by omega)
          (show (0 : Int) ≤ 500 by norm_num)
        exact le_min (by norm_num) (by omega)
  · unfold progressOfIt
    by_cases h1 : n ≤ 1000
    · rw [if_pos h1]; exact min_le_left _ _
    · by_cases h2 : n ≤ 5000
      · rw [if_neg h1, if_pos h2]; exact min_le_left _ _
      · rw [if_neg h1, if_neg h2]; exact min_le_left _ _
  · intro l2 h
    rw [estimateProgress, h]; rfl

/-- Witness for C5 at the concrete line `it: 40`. -/
theorem C5_range_w :
    estimateProgress "it: 40" = some (progressOfIt 40) ∧
    0 ≤ progressOfIt 40 ∧ progressOfIt 40 ≤ 100 ∧
    (∀ l2 : String, firstItValue (tokens l2) = none →
      estimateProgress l2 = none) :=
  C5_range "it: 40" 40 (by decide) (by decide)

/-- C6 counterexample: calling `start_simulation` while a simulation is
running takes the bare `return` path: nothing is reported (no
AlreadyRunningError, no dialog — result `silentIgnored`), the state is
returned unchanged and no worker is created. -/
theorem C6_counterexample :
    start_simulation runningState = (runningState, StartResult.silentIgnored) ∧
    StartResult.silentIgnored ≠
      StartResult.started runningState.current_file_label := by
  decide

/-- C6 (amended): calling start() while a simulation is running is a
silent no-op: it returns synchronously with no error reported, mutates no
state, and never creates a second session (no `started` result). -/
theorem C6_silent_noop (st : RunnerState)
    (h : st.is_running_simulation = true) :
    start_simulation st = (st, StartResult.silentIgnored) := by
  rw [start_simulation, if_pos h]

/-- Witness for C6 at the concrete running state. -/
theorem C6_silent_noop_w :
    start_simulation runningState = (runningState, StartResult.silentIgnored) :=
  C6_silent_noop runningState (by decide)

/-- C7 counterexample: a stop() issued while the controller is idle is not
a no-op: the status label flips from `Ready` to `Failed`, the progress bar
jumps from 0 to 100, and a failure message is appended, because
`stop_simulation` unconditionally calls `on_simulation_finished(-1)`. -/
theorem C7_counterexample :
    idleState.status_label = "Ready" ∧
    idleState.progress_bar = 0 ∧
    (stop_simulation idleState).1.status_label = "Failed" ∧
    (stop_simulation idleState).1.progress_bar = 100 ∧
    (stop_simulation idleState).1 ≠ idleState := by
  decide

/-- C7 (amended): stop() in any state — idle and finished included —
reaches `on_simulation_finished(-1)`: the queue is left unchanged, but the
running flag is cleared, the status label becomes `Failed`, the progress
bar becomes 100, a failure message is appended to the console, and the
continuation offer is made exactly when the queue is non-empty. -/
theorem C7_stop_not_noop (st : RunnerState) :
    (stop_simulation st).1.queue = st.queue ∧
    (stop_simulation st).1.is_running_simulation = false ∧
    (stop_simulation st).1.status_label = "Failed" ∧
    (stop_simulation st).1.progress_bar = 100 ∧
    (stop_simulation st).1.console =
      st.console ++ ["\nSimulation failed with exit code -1\n"] ∧
    (stop_simulation st).2 = decide (st.queue.length > 0) :=
  ⟨rfl, rfl, rfl, rfl, rfl, rfl⟩

/-- Counting terminal events distributes over trace concatenation. -/
theorem finishedDeliveries_append (a b : List Event) :
    finishedDeliveries (a ++ b) =
      finishedDeliveries a + finishedDeliveries b := by
  simp [finishedDeliveries, List.filter_append]

/-- The events of one output line contain no terminal event. -/
theorem finishedDeliveries_lineEvents (l : String) :
    finishedDeliveries (lineEvents l) = 0 := by
  unfold lineEvents finishedDeliveries
  cases estimateProgress l <;> simp [isFinishedEvent]

/-- No terminal event is produced while reading lines. -/
theorem finishedDeliveries_flatMap (ls : List String) :
    finishedDeliveries (ls.flatMap lineEvents) = 0 := by
  induction ls with
  | nil => rfl
  | cons l rest ih =>
    rw [List.flatMap_cons, finishedDeliveries_append,
      finishedDeliveries_lineEvents, ih]

/-- The startup messages contain no terminal event. -/
theorem finishedDeliveries_startup (jar wdir sname : String) :
    finishedDeliveries
      ((startupMessages jar wdir sname).map Event.outputLine) = 0 := rfl

/-- `workerRun` on a located jar, unfolded. -/
theorem workerRun_some (jar wdir sname : String) (ls : List String)
    (pr : Option Int) :
    workerRun ⟨some jar, wdir, sname, ls, pr⟩ =
      (startupMessages jar wdir sname).map Event.outputLine
        ++ ls.flatMap lineEvents
        ++ [Event.simulationFinished (pyOrZero pr)] := rfl

/-- C8 counterexample: a session ended by cancellation receives the
terminal event twice — once emitted by the worker, once through the
direct `on_simulation_finished(-1)` call in `stop_simulation` — so it is
not delivered exactly once. -/
theorem C8_counterexample :
    finishedDeliveries (sessionEvents cancelEnv true) = 2 ∧
    ¬ finishedDeliveries (sessionEvents cancelEnv true) = 1 := by
  decide

/-- C8 (amended): each worker run delivers the terminal event exactly
once, after every OutputLine and ProgressUpdate event, on the jar-missing,
normal and exception (I/O failure) paths alike; but a session ended by
cancellation receives one additional direct `on_simulation_finished(-1)`
invocation from `stop_simulation`, so its terminal handling runs twice. -/
theorem C8_terminal_delivery (env : WorkerEnv)
    (jar wdir sname errText : String) (processed : List String)
    (stopped : Bool) :
    finishedDeliveries (workerRun env) = 1 ∧
    (∃ pre c, workerRun env = pre ++ [Event.simulationFinished c] ∧
      finishedDeliveries pre = 0) ∧
    finishedDeliveries (workerRunFailing jar wdir sname processed errText) = 1 ∧
    (∃ pre, workerRunFailing jar wdir sname processed errText =
      pre ++ [Event.simulationFinished (-1)] ∧ finishedDeliveries pre = 0) ∧
    finishedDeliveries (sessionEvents env stopped) =
      (if stopped then 2 else 1) := by
  have hw1 : finishedDeliveries (workerRun env) = 1 := by
    obtain ⟨jf, w, sn, ls, pr⟩ := env
    cases jf with
    | none => rfl
    | some j =>
      rw [workerRun_some, finishedDeliveries_append, finishedDeliveries_append,
        finishedDeliveries_startup, finishedDeliveries_flatMap]
      rfl
  have hw2 : ∃ pre c, workerRun env = pre ++ [Event.simulationFinished c] ∧
      finishedDeliveries pre = 0 := by
    obtain ⟨jf, w, sn, ls, pr⟩ := env
    cases jf with
    | none => exact ⟨[Event.outputLine jarNotFoundMsg], -1, rfl, rfl⟩
    | some j =>
      refine ⟨(startupMessages j w sn).map Event.outputLine
          ++ ls.flatMap lineEvents, pyOrZero pr, workerRun_some j w sn ls pr, ?_⟩
      rw [finishedDeliveries_append, finishedDeliveries_startup,
        finishedDeliveries_flatMap]
  have hf1 : finishedDeliveries
      (workerRunFailing jar wdir sname processed errText) = 1 := by
    rw [workerRunFailing, finishedDeliveries_append, finishedDeliveries_append,
      finishedDeliveries_startup, finishedDeliveries_flatMap]
    rfl
  have hf2 : ∃ pre, workerRunFailing jar wdir sname processed errText =
      pre ++ [Event.simulationFinished (-1)] ∧ finishedDeliveries pre = 0 := by
    refine ⟨(startupMessages jar wdir sname).map Event.outputLine
        ++ processed.flatMap lineEvents
        ++ [Event.outputLine ("Error running simulation: " ++ errText ++ "\n")],
      ?_, ?_⟩
    · rw [workerRunFailing]
      simp only [List.append_assoc, List.cons_append, List.nil_append]
    · rw [finishedDeliveries_append, finishedDeliveries_append,
        finishedDeliveries_startup, finishedDeliveries_flatMap]
      rfl
  have hs : finishedDeliveries (sessionEvents env stopped) =
      (if stopped then 2 else 1) := by
    rw [sessionEvents, finishedDeliveries_append, hw1]
    cases stopped
    · rfl
    · rfl
  exact ⟨hw1, hw2, hf1, hf2, hs⟩

/-- C9: the jar is searched in the fixed order current directory,
`build/`, `dist/`, `target/`, parent directory, `lib/`, then the
configured working directory and its `build/` and `dist/` subdirectories;
the first existing candidate wins — in particular, when the first two
candidates are absent and the 3rd-priority location (`dist/` under the
current directory) holds the jar, exactly that path is selected; and when
no candidate exists at all, any file the fallback scan selects has a name
that case-insensitively contains `starfish`. -/
theorem C9_jar_search (fs : FsState) (cwd parentDir wd : String)
    (h1 : fs.existing.contains (cwd ++ "/StarfishCLI.jar") = false)
    (h2 : fs.existing.contains (cwd ++ "/build/StarfishCLI.jar") = false)
    (h3 : fs.existing.contains (cwd ++ "/dist/StarfishCLI.jar") = true) :
    candidatePaths cwd parentDir wd true =
      [cwd ++ "/StarfishCLI.jar", cwd ++ "/build/StarfishCLI.jar",
       cwd ++ "/dist/StarfishCLI.jar", cwd ++ "/target/StarfishCLI.jar",
       parentDir ++ "/StarfishCLI.jar", cwd ++ "/lib/StarfishCLI.jar",
       wd ++ "/StarfishCLI.jar", wd ++ "/build/StarfishCLI.jar",
       wd ++ "/dist/StarfishCLI.jar"] ∧
    find_starfish_jar fs cwd parentDir wd true =
      some (cwd ++ "/dist/StarfishCLI.jar") ∧
    (∀ fs2 : FsState, ∀ f : String,
      (∀ p : String, fs2.existing.contains p = false) →
      find_starfish_jar fs2 cwd parentDir wd true = some f →
      strContains f.toLower "starfish" = true) := by
  refine ⟨rfl, ?_, ?_⟩
  · unfold find_starfish_jar candidatePaths
    simp only [if_true, List.cons_append, List.nil_append]
    rw [List.find?_cons_of_neg _ (by simpa using h1),
      List.find?_cons_of_neg _ (by simpa using h2),
      List.find?_cons_of_pos _ (by simpa using h3)]
  · intro fs2 f hall hfind
    unfold find_starfish_jar at hfind
    rw [show (candidatePaths cwd parentDir wd true).find?
          (fun p => fs2.existing.contains p) = none by
        rw [List.find?_eq_none]
        intro x hx
        simpa using hall x] at hfind
    have hfall : fs2.cwdJarGlob.find?
        (fun name => strContains name.toLower "starfish") = some f := hfind
    have hp2 := List.find?_some hfall
    exact hp2

/-- Witness for C9: a filesystem holding only `/c/dist/StarfishCLI.jar`. -/
theorem C9_jar_search_w :
    candidatePaths "/c" "/p" "/w" true =
      ["/c" ++ "/StarfishCLI.jar", "/c" ++ "/build/StarfishCLI.jar",
       "/c" ++ "/dist/StarfishCLI.jar", "/c" ++ "/target/StarfishCLI.jar",
       "/p" ++ "/StarfishCLI.jar", "/c" ++ "/lib/StarfishCLI.jar",
       "/w" ++ "/StarfishCLI.jar", "/w" ++ "/build/StarfishCLI.jar",
       "/w" ++ "/dist/StarfishCLI.jar"] ∧
    find_starfish_jar ⟨["/c/dist/StarfishCLI.jar"], []⟩ "/c" "/p" "/w" true =
      some ("/c" ++ "/dist/StarfishCLI.jar") ∧
    (∀ fs2 : FsState, ∀ f : String,
      (∀ p : String, fs2.existing.contains p = false) →
      find_starfish_jar fs2 "/c" "/p" "/w" true = some f →
      strContains f.toLower "starfish" = true) :=
  C9_jar_search ⟨["/c/dist/StarfishCLI.jar"], []⟩ "/c" "/p" "/w"
    (by decide) (by decide) (by decide)

/-- C10: when the read loop ends with `poll()` returning `None` or `0` —
as after a cooperative stop that terminated the child before its exit
status was reaped — the worker's `exit_code or 0` emits exit code 0, which
the controller classifies as Success (status label `Completed`). -/
theorem C10_falsy_poll_success (env : WorkerEnv) (st : RunnerState)
    (jar : String) (hj : env.jarFile = some jar)
    (hp : env.pollResult = none ∨ env.pollResult = some 0) :
    pyOrZero env.pollResult = 0 ∧
    (∃ pre, workerRun env = pre ++ [Event.simulationFinished 0]) ∧
    classifyExit 0 = Outcome.Success ∧
    (on_simulation_finished st 0).1.status_label = "Completed" := by
  obtain ⟨jf, wdir, sname, ls, pr⟩ := env
  simp only at hj hp
  subst hj
  have h0 : pyOrZero pr = 0 := by
    rcases hp with h | h <;> rw [h] <;> rfl
  refine ⟨h0, ⟨(startupMessages jar wdir sname).map Event.outputLine
      ++ ls.flatMap lineEvents, ?_⟩, by decide, rfl⟩
  rw [workerRun_some, h0]

/-- Witness for C10: a stopped session whose exit status was never reaped
(`poll()` returned `None`). -/
theorem C10_falsy_poll_success_w :
    pyOrZero cancelEnv.pollResult = 0 ∧
    (∃ pre, workerRun cancelEnv = pre ++ [Event.simulationFinished 0]) ∧
    classifyExit 0 = Outcome.Success ∧
    (on_simulation_finished idleState 0).1.status_label = "Completed" :=
  C10_falsy_poll_success cancelEnv idleState "StarfishCLI.jar"
    (by decide) (Or.inl (by decide))
